import Mathlib

/-!
Shallow embedding of the user-routes module of the gym-app backend
(src/backend/routes/users.py) and proofs about its behaviour.

The relational store is modelled as an in-memory list of user rows plus the
seeded role table.  A handler that mutates the store returns the new store
together with the response; a handler that raises returns an error value.
`Exc.http` models `HTTPException(status_code, detail)`; `Exc.attributeError`
models an unhandled Python `AttributeError` (dereferencing `None`), which the
framework surfaces as a 500 rather than a structured HTTP error.
UUIDs are modelled as natural numbers; only their equality is used.
-/

namespace GymApp

/-- A `User` table row: surrogate primary key `id`, exposed `uuid`,
unique `username`, `hashed_password`, and the names of the roles linked
through the many-to-many relationship. -/
structure StoredUser where
  id : Nat
  uuid : Nat
  username : String
  hashed_password : String
  roles : List String
deriving DecidableEq, Repr

/-- The relational store: the `User` table and the seeded `Role` table
(the latter's role names). -/
structure Store where
  users : List StoredUser
  roles : List String
deriving DecidableEq, Repr

/-- An error outcome of a handler. -/
inductive Exc where
  | http (statusCode : Nat) (detail : String)
  | attributeError (msg : String)
deriving DecidableEq, Repr

deriving instance DecidableEq for Except

/-- The per-user payload `UserResponseData`, validated from a row with the
role names substituted in (models/responses.py is not under src; fields are
taken from its uses in users.py and the spec's envelope description). -/
structure UserResponseData where
  uuid : Nat
  username : String
  roles : List String
deriving DecidableEq, Repr

/-- Single-entity response envelope. -/
structure UserResponse where
  data : UserResponseData
  detail : String
deriving DecidableEq, Repr

/-- List response envelope. -/
structure UserListResponse where
  data : List UserResponseData
  detail : String
deriving DecidableEq, Repr

/-- Modelled from the spec: models/user.py is not under src.  The
registration request carries a username and a secret (spec section 6:
POST /users/register creates an account). -/
structure UserCreateReq where
  username : String
  hashed_password : String
deriving DecidableEq, Repr

/-- Modelled from the spec: models/user.py is not under src.  Request body
of the change_username endpoints. -/
structure UserUsernamePatchReq where
  username : String
deriving DecidableEq, Repr

/-- Modelled from the spec: models/user.py is not under src.  Request body
of the change_password endpoints. -/
structure UserPasswordPatchReq where
  password : String
deriving DecidableEq, Repr

/-- Modelled from the spec: models/user.py is not under src.  Request body
of the change_roles endpoint: a list of role names. -/
structure UserRolePatchReq where
  roles : List String
deriving DecidableEq, Repr

/-- `UserResponseData.model_validate(user, update=...)`: reshape a row into
the response payload, with the role names of the relationship. -/
def userResponseData (u : StoredUser) : UserResponseData :=
  { uuid := u.uuid, username := u.username, roles := u.roles }

/-- Commit of an attribute mutation on a fetched row: the row with primary
key `i` is replaced by its updated value. -/
def updateById (users : List StoredUser) (i : Nat) (f : StoredUser → StoredUser) :
    List StoredUser :=
  users.map (fun u => if u.id = i then f u else u)

/-- Modelled from the spec: the decorator `check_roles` is defined in
utilities/authorization.py, which is not under src.  Spec section 4.2: the
guard computes the intersection of the identity's role names with the
required set; if empty, it fails with a forbidden error and the handler is
never invoked; otherwise the handler runs.  The handler is a thunk so that
non-invocation is expressible. -/
def check_roles {α : Type} (required_roles : List String)
    (handler : Unit → Except Exc α) (userRoles : List String) : Except Exc α :=
  if userRoles.any (fun r => required_roles.contains r) then handler ()
  else .error (.http 403 "Forbidden")

/-- GET /users/all: list every user.  The re-fetch of `current_user` is dead
code in the source and is kept as an unused binding. -/
def get_users_and_admins (current_user : StoredUser) (s : Store) : UserListResponse :=
  let _cu := s.users.find? (fun u => u.id = current_user.id)
  let users := s.users
  let data := users.map userResponseData
  let n := data.length
  { data := data
    detail := if n ≠ 1 then toString n ++ " users fetched successfully."
              else toString n ++ " user fetched successfully." }

/-- GET /users/admins: list users joined to the role named "Admin". -/
def get_admins (_current_user : StoredUser) (s : Store) : UserListResponse :=
  let admins := s.users.filter (fun u => u.roles.contains "Admin")
  let data := admins.map userResponseData
  let n := data.length
  { data := data
    detail := if n ≠ 1 then toString n ++ " admins fetched successfully."
              else toString n ++ " admin fetched successfully." }

/-- GET /users/users: list users joined to the role named "User". -/
def get_users (_current_user : StoredUser) (s : Store) : UserListResponse :=
  let users := s.users.filter (fun u => u.roles.contains "User")
  let data := users.map userResponseData
  let n := data.length
  { data := data
    detail := if n ≠ 1 then toString n ++ " users fetched successfully."
              else toString n ++ " user fetched successfully." }

/-- GET /users/:uuid.  The source checks `if not current_user` — the
re-fetched caller — where the fetched target `user` was evidently meant, so
a missing target is never caught: the code falls through to
`user.roles` on `None`, an `AttributeError`, not a 404. -/
def get_specific_user (current_user : StoredUser) (user_uuid : Nat) (s : Store) :
    Except Exc UserResponse :=
  let cu := s.users.find? (fun u => u.id = current_user.id)
  let user := s.users.find? (fun u => u.uuid = user_uuid)
  match cu with
  | none => .error (.http 404 ("User UUID: " ++ toString user_uuid ++ " not found."))
  | some _ =>
    match user with
    | none => .error (.attributeError "NoneType object has no attribute roles")
    | some u => .ok { data := userResponseData u, detail := "User fetched successfully." }

/-- POST /users/register: 409 when the username is taken, otherwise insert a
new row linked to the seeded "User" role.  `newId` and `newUuid` model the
autoincrement key and the generated uuid4.  Appending an absent role row
(`None`) would fail at commit, modelled as an error. -/
def add_user (req : UserCreateReq) (newId newUuid : Nat) (s : Store) :
    Except Exc (Store × UserResponse) :=
  let username := req.username
  if (s.users.find? (fun u => u.username = username)).isSome then
    .error (.http 409 ("Username: " ++ username ++ " already exists."))
  else
    match s.roles.find? (fun r => r = "User") with
    | none => .error (.attributeError "appended NoneType role to relationship")
    | some userRole =>
      let user : StoredUser :=
        { id := newId, uuid := newUuid, username := req.username
          hashed_password := req.hashed_password, roles := [userRole] }
      let s' : Store := { s with users := s.users ++ [user] }
      .ok (s', { data := userResponseData user, detail := "New User has been added." })

/-- PATCH /users/me/change_username: the collision query excludes the
caller's own row (`User.id != current_user.id`). -/
def patch_logged_in_user_username (current_user : StoredUser)
    (req : UserUsernamePatchReq) (s : Store) : Except Exc (Store × UserResponse) :=
  match s.users.find? (fun u => u.id = current_user.id) with
  | none => .error (.attributeError "NoneType object has no attribute id")
  | some cu =>
    if (s.users.find? (fun u => u.id ≠ cu.id ∧ u.username = req.username)).isSome then
      .error (.http 409 ("Username: " ++ req.username ++ " already exists."))
    else
      let cu' := { cu with username := req.username }
      let s' : Store :=
        { s with users := updateById s.users cu.id (fun u => { u with username := req.username }) }
      .ok (s', { data := userResponseData cu', detail := "User updated." })

/-- PATCH /users/:uuid/change_username: self-targeting is forbidden first;
the collision query does not exclude the target's own row. -/
def patch_user_username (current_user : StoredUser) (user_uuid : Nat)
    (req : UserUsernamePatchReq) (s : Store) : Except Exc (Store × UserResponse) :=
  if current_user.uuid = user_uuid then
    .error (.http 403 "You cannot change your own username.")
  else
    match s.users.find? (fun u => u.uuid = user_uuid) with
    | none => .error (.http 404 ("User UUID: " ++ toString user_uuid ++ " not found."))
    | some user =>
      if (s.users.find? (fun u => u.username = req.username)).isSome then
        .error (.http 409 ("Username: " ++ req.username ++ " already exists."))
      else
        let user' := { user with username := req.username }
        let s' : Store :=
          { s with users := updateById s.users user.id (fun u => { u with username := req.username }) }
        .ok (s', { data := userResponseData user', detail := "User updated." })

/-- PATCH /users/me/change_password: stores the request's password field
into `hashed_password` as-is. -/
def patch_logged_in_user_password (current_user : StoredUser)
    (req : UserPasswordPatchReq) (s : Store) : Except Exc (Store × UserResponse) :=
  match s.users.find? (fun u => u.id = current_user.id) with
  | none => .error (.attributeError "NoneType object has no attribute hashed_password")
  | some cu =>
    let cu' := { cu with hashed_password := req.password }
    let s' : Store :=
      { s with users := updateById s.users cu.id (fun u => { u with hashed_password := req.password }) }
    .ok (s', { data := userResponseData cu', detail := "User updated." })

/-- PATCH /users/:uuid/change_password: self-targeting forbidden, then 404
on a missing target, then store the request's password field as-is. -/
def patch_user_password (current_user : StoredUser) (user_uuid : Nat)
    (req : UserPasswordPatchReq) (s : Store) : Except Exc (Store × UserResponse) :=
  if current_user.uuid = user_uuid then
    .error (.http 403 "You cannot change your own password.")
  else
    match s.users.find? (fun u => u.uuid = user_uuid) with
    | none => .error (.http 404 ("User UUID: " ++ toString user_uuid ++ " not found."))
    | some user =>
      let user' := { user with hashed_password := req.password }
      let s' : Store :=
        { s with users := updateById s.users user.id (fun u => { u with hashed_password := req.password }) }
      .ok (s', { data := userResponseData user', detail := "User updated." })

/-- The role-resolution loop of change_roles.  The source rebinds the loop
variable `role` to the query result before the not-found check, so the
404 detail formats `None`, not the requested role name: the message is
literally "Role: None not found." whichever role was missing. -/
def lookupRolesLoop (roleTable : List String) : List String → Except Exc (List String)
  | [] => .ok []
  | r :: rest =>
    match roleTable.find? (fun x => x = r) with
    | none => .error (.http 404 "Role: None not found.")
    | some role =>
      match lookupRolesLoop roleTable rest with
      | .error e => .error e
      | .ok rs => .ok (role :: rs)

/-- PATCH /users/:uuid/change_roles: self-targeting forbidden, 404 on a
missing target, resolve every requested role name, then replace the
target's role list with the resolved roles. -/
def patch_user_role (current_user : StoredUser) (user_uuid : Nat)
    (req : UserRolePatchReq) (s : Store) : Except Exc (Store × UserResponse) :=
  if current_user.uuid = user_uuid then
    .error (.http 403 "You cannot change your own roles.")
  else
    match s.users.find? (fun u => u.uuid = user_uuid) with
    | none => .error (.http 404 ("User UUID: " ++ toString user_uuid ++ " not found."))
    | some user =>
      match lookupRolesLoop s.roles req.roles with
      | .error e => .error e
      | .ok roles =>
        let user' := { user with roles := roles }
        let s' : Store :=
          { s with users := updateById s.users user.id (fun u => { u with roles := roles }) }
        .ok (s', { data := userResponseData user', detail := "User updated." })

/-- DELETE /users/:uuid: 404 on a missing target, otherwise delete the row
(204 no-content carries no body, so only the new store is returned). -/
def delete_user (_current_user : StoredUser) (user_uuid : Nat) (s : Store) :
    Except Exc Store :=
  match s.users.find? (fun u => u.uuid = user_uuid) with
  | none => .error (.http 404 ("User UUID: " ++ toString user_uuid ++ " not found."))
  | some user =>
    .ok { s with users := s.users.filter (fun u => u.id ≠ user.id) }

/-- Fixture: an admin caller. -/
def adminFixture : StoredUser :=
  { id := 1, uuid := 1, username := "admin", hashed_password := "h1", roles := ["User", "Admin"] }

/-- Fixture: a plain user. -/
def bobFixture : StoredUser :=
  { id := 2, uuid := 2, username := "bob", hashed_password := "h2", roles := ["User"] }

/-- Fixture: a second plain user. -/
def carolFixture : StoredUser :=
  { id := 3, uuid := 3, username := "carol", hashed_password := "h3", roles := ["User"] }

/-- Fixture store with the seeded role table. -/
def storeFixture : Store :=
  { users := [adminFixture, bobFixture, carolFixture], roles := ["User", "Admin"] }

/-- The fixture store after the admin has replaced bob's role list with
just "Admin". -/
def storeFixtureBobAdminOnly : Store :=
  { users := [adminFixture,
              { id := 2, uuid := 2, username := "bob", hashed_password := "h2"
                roles := ["Admin"] },
              carolFixture]
    roles := ["User", "Admin"] }

/-- Updating the row of a member of the table keeps the updated row a
member of the updated table. -/
theorem mem_updateById (users : List StoredUser) (u : StoredUser) (hu : u ∈ users)
    (f : StoredUser → StoredUser) : f u ∈ updateById users u.id f := by
  unfold updateById
  have h : (if u.id = u.id then f u else u) = f u := by simp
  rw [← h]
  exact List.mem_map_of_mem _ hu

/-- Appending strings of different lengths to the same string yields
different strings. -/
theorem append_ne_of_length_ne (a b c : String) (h : b.length ≠ c.length) :
    a ++ b ≠ a ++ c := by
  intro he
  have := congrArg String.length he
  simp only [String.length_append] at this
  exact h (by omega)

/-- The cardinality-dependent detail expression equals the singular form
iff the count is one, provided the two noun suffixes differ in length. -/
theorem singular_detail_iff (n : Nat) (sing plur : String)
    (hlen : sing.length ≠ plur.length) :
    ((if n ≠ 1 then toString n ++ plur else toString n ++ sing) =
        toString n ++ sing) ↔ n = 1 := by
  by_cases hn : n = 1
  · simp [hn]
  · have h : (if n ≠ 1 then toString n ++ plur else toString n ++ sing) =
        toString n ++ plur := by simp [hn]
    rw [h]
    constructor
    · intro he
      exact absurd he (append_ne_of_length_ne _ _ _ (fun hx => hlen hx.symm))
    · intro h1
      exact absurd h1 hn

/-- C1: the guard runs the wrapped handler iff the caller's role set meets
the required set; on an empty intersection it fails with a 403 forbidden
error and the result does not depend on the handler (it is never invoked). -/
theorem check_roles_guard_iff {α : Type} (R Q : List String)
    (h h' : Unit → Except Exc α) :
    ((∃ r, r ∈ R ∧ r ∈ Q) → check_roles Q h R = h ()) ∧
    ((¬ ∃ r, r ∈ R ∧ r ∈ Q) →
      check_roles Q h R = .error (.http 403 "Forbidden") ∧
      check_roles Q h R = check_roles Q h' R) := by
  constructor
  · rintro ⟨r, hrR, hrQ⟩
    have hc : R.any (fun r => Q.contains r) = true := by
      rw [List.any_eq_true]
      exact ⟨r, hrR, List.elem_eq_true_of_mem hrQ⟩
    unfold check_roles
    rw [hc]
    simp
  · intro hne
    have hc : R.any (fun r => Q.contains r) = false := by
      rw [List.any_eq_false]
      intro r hr hcon
      exact hne ⟨r, hr, List.elem_iff.mp hcon⟩
    unfold check_roles
    rw [hc]
    simp

/-- C1 witness: a caller holding the "User" role passes a guard requiring
"User" or "Admin"; a caller holding only "User" is rejected by a guard
requiring "Admin". -/
theorem check_roles_guard_iff_witness :
    check_roles ["User", "Admin"] (fun _ => (.ok 0 : Except Exc Nat)) ["User"] = .ok 0 ∧
    check_roles ["Admin"] (fun _ => (.ok 0 : Except Exc Nat)) ["User"] =
      .error (.http 403 "Forbidden") :=
  ⟨(check_roles_guard_iff ["User"] ["User", "Admin"] (fun _ => .ok 0) (fun _ => .ok 0)).1
      ⟨"User", by decide, by decide⟩,
   ((check_roles_guard_iff ["User"] ["Admin"] (fun _ => .ok 0) (fun _ => .ok 0)).2
      (by decide)).1⟩

/-- C5: registering a username already present in the store fails with a
409 conflict naming the username; no row is created (an error outcome
carries no new store). -/
theorem register_duplicate_username_conflict
    (req : UserCreateReq) (newId newUuid : Nat) (s : Store)
    (hdup : ∃ u, u ∈ s.users ∧ u.username = req.username) :
    add_user req newId newUuid s =
      .error (.http 409 ("Username: " ++ req.username ++ " already exists.")) := by
  have hs : (s.users.find? (fun u => u.username = req.username)).isSome := by
    rw [List.find?_isSome]
    obtain ⟨u, hu, he⟩ := hdup
    exact ⟨u, hu, by simp [he]⟩
  simp [add_user, hs]

/-- C5 witness: registering the taken username "bob" conflicts. -/
theorem register_duplicate_username_conflict_witness :
    add_user ⟨"bob", "x"⟩ 9 9 storeFixture =
      .error (.http 409 "Username: bob already exists.") :=
  register_duplicate_username_conflict ⟨"bob", "x"⟩ 9 9 storeFixture
    ⟨bobFixture, by decide, by decide⟩

/-- C6: a successful registration (username free, "User" role seeded)
stores a new row whose role set is exactly the singleton "User", and the
response payload's role list is exactly the singleton "User". -/
theorem register_assigns_user_role
    (req : UserCreateReq) (newId newUuid : Nat) (s : Store)
    (hfree : ¬ ∃ u, u ∈ s.users ∧ u.username = req.username)
    (hseed : "User" ∈ s.roles) :
    add_user req newId newUuid s =
      .ok ({ s with users := s.users ++
              [{ id := newId, uuid := newUuid, username := req.username
                 hashed_password := req.hashed_password, roles := ["User"] }] },
           { data := { uuid := newUuid, username := req.username, roles := ["User"] }
             detail := "New User has been added." }) := by
  have h1 : s.users.find? (fun u => u.username = req.username) = none := by
    rw [List.find?_eq_none]
    intro u hu
    simp only [decide_eq_true_eq]
    exact fun he => hfree ⟨u, hu, he⟩
  have h2 : s.roles.find? (fun r => r = "User") = some "User" := by
    have hs : (s.roles.find? (fun r => r = "User")).isSome := by
      rw [List.find?_isSome]
      exact ⟨"User", hseed, by simp⟩
    obtain ⟨x, hx⟩ := Option.isSome_iff_exists.mp hs
    have hp := List.find?_some hx
    simp only [decide_eq_true_eq] at hp
    rw [hx, hp]
  simp [add_user, h1, h2, userResponseData]

/-- C6 witness: registering "dave" on the fixture store stores and returns
exactly the "User" role. -/
theorem register_assigns_user_role_witness :
    add_user ⟨"dave", "h4"⟩ 4 4 storeFixture =
      .ok ({ storeFixture with users := storeFixture.users ++
              [{ id := 4, uuid := 4, username := "dave"
                 hashed_password := "h4", roles := ["User"] }] },
           { data := { uuid := 4, username := "dave", roles := ["User"] }
             detail := "New User has been added." }) :=
  register_assigns_user_role ⟨"dave", "h4"⟩ 4 4 storeFixture (by decide) (by decide)

/-- C8: for each of the three list endpoints, the detail message is the
grammatically singular form iff the returned list has exactly one element. -/
theorem list_detail_singular_iff (current : StoredUser) (s : Store) :
    (((get_users_and_admins current s).detail =
        toString (get_users_and_admins current s).data.length ++
          " user fetched successfully.") ↔
      (get_users_and_admins current s).data.length = 1) ∧
    (((get_admins current s).detail =
        toString (get_admins current s).data.length ++
          " admin fetched successfully.") ↔
      (get_admins current s).data.length = 1) ∧
    (((get_users current s).detail =
        toString (get_users current s).data.length ++
          " user fetched successfully.") ↔
      (get_users current s).data.length = 1) :=
  ⟨singular_detail_iff _ _ _ (by decide),
   singular_detail_iff _ _ _ (by decide),
   singular_detail_iff _ _ _ (by decide)⟩

/-- C8 witness: on the three-user fixture store the full listing's detail
is the plural form, matching a count different from one. -/
theorem list_detail_singular_iff_witness :
    ((get_users_and_admins adminFixture storeFixture).detail =
        toString (get_users_and_admins adminFixture storeFixture).data.length ++
          " user fetched successfully.") ↔
      (get_users_and_admins adminFixture storeFixture).data.length = 1 :=
  (list_detail_singular_iff adminFixture storeFixture).1

/-- C9: both change_password endpoints store the request's password field
verbatim into the target row's hashed_password field, with no
transformation; the updated row (whose hashed_password IS the raw request
value) is a member of the resulting user table. -/
theorem change_password_stores_verbatim
    (current : StoredUser) (user_uuid : Nat) (p : String) (s : Store) :
    (∀ cu, s.users.find? (fun u => u.id = current.id) = some cu →
      patch_logged_in_user_password current ⟨p⟩ s =
        .ok ({ s with users := (updateById s.users cu.id
                 (fun u => { u with hashed_password := p })) },
             { data := userResponseData { cu with hashed_password := p }
               detail := "User updated." }) ∧
      { cu with hashed_password := p } ∈
        updateById s.users cu.id (fun u => { u with hashed_password := p })) ∧
    (current.uuid ≠ user_uuid →
      ∀ t, s.users.find? (fun u => u.uuid = user_uuid) = some t →
      patch_user_password current user_uuid ⟨p⟩ s =
        .ok ({ s with users := (updateById s.users t.id
                 (fun u => { u with hashed_password := p })) },
             { data := userResponseData { t with hashed_password := p }
               detail := "User updated." }) ∧
      { t with hashed_password := p } ∈
        updateById s.users t.id (fun u => { u with hashed_password := p })) := by
  constructor
  · intro cu hcu
    refine ⟨?_, mem_updateById s.users cu (List.mem_of_find?_eq_some hcu) _⟩
    unfold patch_logged_in_user_password
    rw [hcu]
  · intro hne t ht
    refine ⟨?_, mem_updateById s.users t (List.mem_of_find?_eq_some ht) _⟩
    unfold patch_user_password
    rw [if_neg hne, ht]

/-- C9 witness: the admin sets bob's password to the literal "plaintext",
which is stored as the hashed_password verbatim. -/
theorem change_password_stores_verbatim_witness :
    patch_user_password adminFixture 2 ⟨"plaintext"⟩ storeFixture =
      .ok ({ storeFixture with users := (updateById storeFixture.users bobFixture.id
               (fun u => { u with hashed_password := "plaintext" })) },
           { data := userResponseData { bobFixture with hashed_password := "plaintext" }
             detail := "User updated." }) ∧
    { bobFixture with hashed_password := "plaintext" } ∈
      updateById storeFixture.users bobFixture.id
        (fun u => { u with hashed_password := "plaintext" }) :=
  (change_password_stores_verbatim adminFixture 2 "plaintext" storeFixture).2
    (by decide) bobFixture (by decide)

/-- C10: the uniqueness pre-check of the two change_username endpoints is
asymmetric.  The me-route excludes the caller's own row, so submitting
one's own current username succeeds and leaves the store unchanged; the
uuid-route does not exclude the target's row, so submitting the target's
own current username always yields a 409 conflict. -/
theorem change_username_precheck_asymmetry
    (current : StoredUser) (user_uuid : Nat) (s : Store) :
    (∀ cu, s.users.find? (fun u => u.id = current.id) = some cu →
      (s.users.map (fun u => u.id)).Nodup →
      (s.users.map (fun u => u.username)).Nodup →
      patch_logged_in_user_username current ⟨cu.username⟩ s =
        .ok (s, { data := userResponseData cu, detail := "User updated." })) ∧
    (current.uuid ≠ user_uuid →
      ∀ t, s.users.find? (fun u => u.uuid = user_uuid) = some t →
      patch_user_username current user_uuid ⟨t.username⟩ s =
        .error (.http 409 ("Username: " ++ t.username ++ " already exists."))) := by
  constructor
  · intro cu hcu hids husers
    have hmem : cu ∈ s.users := List.mem_of_find?_eq_some hcu
    have hnone : s.users.find?
        (fun u => u.id ≠ cu.id ∧ u.username = cu.username) = none := by
      rw [List.find?_eq_none]
      intro u hu hcon
      simp only [decide_eq_true_eq] at hcon
      exact hcon.1
        (congrArg StoredUser.id (List.inj_on_of_nodup_map husers hu hmem hcon.2))
    have hupd : updateById s.users cu.id
        (fun u => { u with username := cu.username }) = s.users := by
      unfold updateById
      have hstep : ∀ u ∈ s.users,
          (if u.id = cu.id then { u with username := cu.username } else u) = id u := by
        intro u hu
        by_cases hid : u.id = cu.id
        · have heq : u = cu := List.inj_on_of_nodup_map hids hu hmem hid
          subst heq
          rw [if_pos rfl]
          rfl
        · rw [if_neg hid]
          rfl
      rw [List.map_congr_left hstep, List.map_id]
    unfold patch_logged_in_user_username
    rw [hcu]
    simp only [hnone, Option.isSome_none, Bool.false_eq_true, if_false]
    rw [hupd]
  · intro hne t ht
    have hmem : t ∈ s.users := List.mem_of_find?_eq_some ht
    have hsome : (s.users.find? (fun u => u.username = t.username)).isSome := by
      rw [List.find?_isSome]
      exact ⟨t, hmem, by simp⟩
    unfold patch_user_username
    rw [if_neg hne, ht]
    simp [hsome]

/-- C10 witness: bob resubmitting his own username "bob" on the me-route
succeeds with the store unchanged; the admin submitting bob's own current
username "bob" on the uuid-route targeting bob yields a 409 conflict. -/
theorem change_username_precheck_asymmetry_witness :
    (patch_logged_in_user_username bobFixture ⟨"bob"⟩ storeFixture =
      .ok (storeFixture, { data := userResponseData bobFixture
                           detail := "User updated." })) ∧
    (patch_user_username adminFixture 2 ⟨"bob"⟩ storeFixture =
      .error (.http 409 "Username: bob already exists.")) :=
  ⟨(change_username_precheck_asymmetry bobFixture 0 storeFixture).1 bobFixture
      (by decide) (by decide) (by decide),
   (change_username_precheck_asymmetry adminFixture 2 storeFixture).2
      (by decide) bobFixture (by decide)⟩

/-- A successful role resolution returns exactly the requested names: each
lookup is by name equality, so the found row's name is the requested one. -/
theorem lookupRolesLoop_ok_eq (table : List String) :
    ∀ (rs out : List String), lookupRolesLoop table rs = .ok out → out = rs := by
  intro rs
  induction rs with
  | nil =>
    intro out h
    unfold lookupRolesLoop at h
    cases h
    rfl
  | cons r rest ih =>
    intro out h
    unfold lookupRolesLoop at h
    cases hf : table.find? (fun x => x = r) with
    | none =>
      rw [hf] at h
      cases h
    | some role =>
      rw [hf] at h
      have hrole : role = r := by
        have hp := List.find?_some hf
        simpa using hp
      cases hrec : lookupRolesLoop table rest with
      | error e =>
        rw [hrec] at h
        cases h
      | ok rs2 =>
        rw [hrec] at h
        cases h
        rw [hrole, ih rs2 hrec]

/-- When every requested role name is seeded, the role resolution loop
succeeds and returns the requested names. -/
theorem lookupRolesLoop_ok_of_mem (table : List String) :
    ∀ rs, (∀ r, r ∈ rs → r ∈ table) → lookupRolesLoop table rs = .ok rs := by
  intro rs
  induction rs with
  | nil => intro _; rfl
  | cons r rest ih =>
    intro hmem
    have hsome : table.find? (fun x => x = r) = some r := by
      have hs : (table.find? (fun x => x = r)).isSome := by
        rw [List.find?_isSome]
        exact ⟨r, hmem r (by simp), by simp⟩
      obtain ⟨x, hx⟩ := Option.isSome_iff_exists.mp hs
      have hp := List.find?_some hx
      simp only [decide_eq_true_eq] at hp
      rw [hx, hp]
    unfold lookupRolesLoop
    rw [hsome, ih (fun x hxx => hmem x (by simp [hxx]))]

/-- C2 counterexample: on the fixture store every user holds the "User"
role, yet PATCH change_roles on bob with body roles = just "Admin" succeeds
and leaves bob without the "User" role — the invariant is not preserved by
change_roles. -/
theorem change_roles_drops_user_role_cex :
    (∀ u, u ∈ storeFixture.users → "User" ∈ u.roles) ∧
    patch_user_role adminFixture 2 ⟨["Admin"]⟩ storeFixture =
      .ok (storeFixtureBobAdminOnly,
           { data := { uuid := 2, username := "bob", roles := ["Admin"] }
             detail := "User updated." }) ∧
    ¬ (∀ u, u ∈ storeFixtureBobAdminOnly.users → "User" ∈ u.roles) := by
  refine ⟨by decide, by decide, by decide⟩

/-- C2 amended: change_roles replaces the target's role list with exactly
the roles named in the request (so membership of "User" survives iff the
request names it); every other row of the resulting store is an unchanged
row of the original store. -/
theorem change_roles_replaces_roles_exactly
    (current : StoredUser) (user_uuid : Nat) (req : UserRolePatchReq) (s : Store)
    (s' : Store) (resp : UserResponse)
    (hok : patch_user_role current user_uuid req s = .ok (s', resp)) :
    resp.data.roles = req.roles ∧
    ∀ u, u ∈ s'.users → u.roles = req.roles ∨ u ∈ s.users := by
  unfold patch_user_role at hok
  by_cases hself : current.uuid = user_uuid
  · rw [if_pos hself] at hok
    cases hok
  · rw [if_neg hself] at hok
    cases hf : s.users.find? (fun u => u.uuid = user_uuid) with
    | none =>
      rw [hf] at hok
      cases hok
    | some t =>
      rw [hf] at hok
      cases hl : lookupRolesLoop s.roles req.roles with
      | error e =>
        rw [hl] at hok
        cases hok
      | ok roles =>
        rw [hl] at hok
        have hroles : roles = req.roles :=
          lookupRolesLoop_ok_eq s.roles req.roles roles hl
        injection hok with hpair
        injection hpair with h1 h2
        subst h1
        subst h2
        constructor
        · simp [userResponseData, hroles]
        · intro u hu
          simp only [updateById, List.mem_map] at hu
          obtain ⟨a, ha, rfl⟩ := hu
          by_cases hid : a.id = t.id
          · left
            simp [hid, hroles]
          · right
            simpa [hid] using ha

/-- C2 amended witness: at the counterexample input, the response carries
exactly the requested roles and every row is either role-replaced or an
original row. -/
theorem change_roles_replaces_roles_exactly_witness :
    ({ data := { uuid := 2, username := "bob", roles := ["Admin"] }
       detail := "User updated." } : UserResponse).data.roles = ["Admin"] ∧
    ∀ u, u ∈ storeFixtureBobAdminOnly.users →
      u.roles = ["Admin"] ∨ u ∈ storeFixture.users :=
  change_roles_replaces_roles_exactly adminFixture 2 ⟨["Admin"]⟩ storeFixture
    storeFixtureBobAdminOnly
    { data := { uuid := 2, username := "bob", roles := ["Admin"] }
      detail := "User updated." }
    (by decide)

/-- C4 counterexample: the target uuid 2 names an existing user different
from the admin caller, yet change_username with a username already held by
a third user fails with a 409 conflict and mutates nothing — "proceeds to
mutate whenever the uuid names a different existing user" is false as
stated. -/
theorem admin_other_existing_user_not_mutated_cex :
    adminFixture.uuid ≠ 2 ∧
    bobFixture ∈ storeFixture.users ∧ bobFixture.uuid = 2 ∧
    patch_user_username adminFixture 2 ⟨"carol"⟩ storeFixture =
      .error (.http 409 "Username: carol already exists.") := by
  refine ⟨by decide, by decide, by decide, by decide⟩

/-- C4 amended: the three admin-targeted endpoints always fail with a 403
forbidden error when the target uuid equals the caller's own uuid; when the
uuid names a different existing user they mutate the target provided the
endpoint's remaining validation passes (no username collision for
change_username, every named role seeded for change_roles; change_password
has no further check). -/
theorem targeted_patch_self_forbidden_other_mutates
    (current : StoredUser) (user_uuid : Nat) (s : Store)
    (newName newPass : String) (newRoles : List String) :
    (current.uuid = user_uuid →
      patch_user_username current user_uuid ⟨newName⟩ s =
        .error (.http 403 "You cannot change your own username.") ∧
      patch_user_password current user_uuid ⟨newPass⟩ s =
        .error (.http 403 "You cannot change your own password.") ∧
      patch_user_role current user_uuid ⟨newRoles⟩ s =
        .error (.http 403 "You cannot change your own roles.")) ∧
    (current.uuid ≠ user_uuid →
      ∀ t, s.users.find? (fun u => u.uuid = user_uuid) = some t →
      (patch_user_password current user_uuid ⟨newPass⟩ s =
         .ok ({ s with users := (updateById s.users t.id
                  (fun u => { u with hashed_password := newPass })) },
              { data := userResponseData { t with hashed_password := newPass }
                detail := "User updated." }) ∧
       { t with hashed_password := newPass } ∈
         updateById s.users t.id (fun u => { u with hashed_password := newPass })) ∧
      ((¬ ∃ u, u ∈ s.users ∧ u.username = newName) →
       patch_user_username current user_uuid ⟨newName⟩ s =
         .ok ({ s with users := (updateById s.users t.id
                  (fun u => { u with username := newName })) },
              { data := userResponseData { t with username := newName }
                detail := "User updated." }) ∧
       { t with username := newName } ∈
         updateById s.users t.id (fun u => { u with username := newName })) ∧
      ((∀ r, r ∈ newRoles → r ∈ s.roles) →
       patch_user_role current user_uuid ⟨newRoles⟩ s =
         .ok ({ s with users := (updateById s.users t.id
                  (fun u => { u with roles := newRoles })) },
              { data := userResponseData { t with roles := newRoles }
                detail := "User updated." }) ∧
       { t with roles := newRoles } ∈
         updateById s.users t.id (fun u => { u with roles := newRoles }))) := by
  constructor
  · intro hself
    refine ⟨?_, ?_, ?_⟩
    · unfold patch_user_username
      rw [if_pos hself]
    · unfold patch_user_password
      rw [if_pos hself]
    · unfold patch_user_role
      rw [if_pos hself]
  · intro hne t ht
    have hmem : t ∈ s.users := List.mem_of_find?_eq_some ht
    refine ⟨⟨?_, mem_updateById s.users t hmem _⟩, ?_, ?_⟩
    · unfold patch_user_password
      rw [if_neg hne, ht]
    · intro hfree
      have hnone : s.users.find? (fun u => u.username = newName) = none := by
        rw [List.find?_eq_none]
        intro u hu hcon
        simp only [decide_eq_true_eq] at hcon
        exact hfree ⟨u, hu, hcon⟩
      refine ⟨?_, mem_updateById s.users t hmem _⟩
      unfold patch_user_username
      rw [if_neg hne, ht]
      simp only [hnone, Option.isSome_none, Bool.false_eq_true, if_false]
    · intro hall
      have hloop : lookupRolesLoop s.roles newRoles = .ok newRoles :=
        lookupRolesLoop_ok_of_mem s.roles newRoles hall
      refine ⟨?_, mem_updateById s.users t hmem _⟩
      unfold patch_user_role
      rw [if_neg hne, ht, hloop]

/-- C4 amended witness: the admin targeting their own uuid is forbidden;
targeting bob, each endpoint mutates bob when its validation passes. -/
theorem targeted_patch_self_forbidden_other_mutates_witness :
    (patch_user_username adminFixture 1 ⟨"zed"⟩ storeFixture =
       .error (.http 403 "You cannot change your own username.")) ∧
    (patch_user_password adminFixture 2 ⟨"pw"⟩ storeFixture =
       .ok ({ storeFixture with users := (updateById storeFixture.users bobFixture.id
                (fun u => { u with hashed_password := "pw" })) },
            { data := userResponseData { bobFixture with hashed_password := "pw" }
              detail := "User updated." })) ∧
    (patch_user_username adminFixture 2 ⟨"zed"⟩ storeFixture =
       .ok ({ storeFixture with users := (updateById storeFixture.users bobFixture.id
                (fun u => { u with username := "zed" })) },
            { data := userResponseData { bobFixture with username := "zed" }
              detail := "User updated." })) ∧
    (patch_user_role adminFixture 2 ⟨["Admin", "User"]⟩ storeFixture =
       .ok ({ storeFixture with users := (updateById storeFixture.users bobFixture.id
                (fun u => { u with roles := ["Admin", "User"] })) },
            { data := userResponseData { bobFixture with roles := ["Admin", "User"] }
              detail := "User updated." })) :=
  ⟨((targeted_patch_self_forbidden_other_mutates adminFixture 1 storeFixture
      "zed" "pw" []).1 rfl).1,
   (((targeted_patch_self_forbidden_other_mutates adminFixture 2 storeFixture
      "zed" "pw" ["Admin", "User"]).2 (by decide) bobFixture (by decide)).1).1,
   ((((targeted_patch_self_forbidden_other_mutates adminFixture 2 storeFixture
      "zed" "pw" ["Admin", "User"]).2 (by decide) bobFixture (by decide)).2).1
      (by decide)).1,
   ((((targeted_patch_self_forbidden_other_mutates adminFixture 2 storeFixture
      "zed" "pw" ["Admin", "User"]).2 (by decide) bobFixture (by decide)).2).2
      (by decide)).1⟩

/-- C3: two keyed lookups diverge from "404 carrying the missing key".
GET on a uuid matching no row slips past the misdirected existence check
(it tests the re-fetched caller, not the target) and dereferences None —
an AttributeError, not a 404; and the change_roles role lookup's 404
detail formats the rebound None, so it reads "Role: None not found."
without the missing role name "Wizard". -/
theorem keyed_lookup_404_slips :
    (∀ u, u ∈ storeFixture.users → u.uuid ≠ 99) ∧
    get_specific_user adminFixture 99 storeFixture =
      .error (.attributeError "NoneType object has no attribute roles") ∧
    ("Wizard" ∉ storeFixture.roles) ∧
    patch_user_role adminFixture 2 ⟨["Wizard"]⟩ storeFixture =
      .error (.http 404 "Role: None not found.") := by
  refine ⟨by decide, by decide, by decide, by decide⟩

/-- C7: deleting a missing uuid is a 404 with the key, deleting bob removes
his row, but the subsequent GET of the deleted uuid is an AttributeError
(the misdirected existence check of get_specific_user), not the claimed
not-found. -/
theorem delete_then_get_slip :
    delete_user adminFixture 99 storeFixture =
      .error (.http 404 "User UUID: 99 not found.") ∧
    delete_user adminFixture 2 storeFixture =
      .ok { users := [adminFixture, carolFixture], roles := ["User", "Admin"] } ∧
    get_specific_user adminFixture 2
        { users := [adminFixture, carolFixture], roles := ["User", "Admin"] } =
      .error (.attributeError "NoneType object has no attribute roles") := by
  refine ⟨by decide, by decide, by decide⟩

end GymApp
